import Mathlib

/-!
Shallow embedding of the Ding-Chat client components: the room directory
(RoomList: fetchRooms sorting, the search effect, joinRoom), the chat panel
(Chat: handleSend, handleImageUpload) and the room view toggles (RoomView).
Backend round trips are modelled as explicit response parameters of type
Except; each handler is a pure function from its inputs and the backend
responses to a record of its observable effects.
-/

/-- The trim operation on strings used by the handlers: leading and
trailing whitespace is dropped. -/
def jsTrim (s : String) : String :=
  String.mk (((s.data.dropWhile Char.isWhitespace).reverse.dropWhile
    Char.isWhitespace).reverse)

/-- The toLowerCase operation on strings: each character is lowercased. -/
def jsToLower (s : String) : String :=
  String.mk (s.data.map Char.toLower)

/-- The startsWith test on strings. -/
def jsStartsWith (s p : String) : Bool :=
  List.isPrefixOf p.data s.data

/-- A row of the rooms relation, as the RoomList component sees it. -/
structure Room where
  id : String
  name : String
  owner_email : String
  created_at : Int
  password_hash : String
  max_users : Int
  owner_id : String
deriving DecidableEq

/-- A row of the room_users relation. -/
structure RoomUser where
  room_id : String
  user_id : String
deriving DecidableEq

/-- The comparator passed to the room sort in fetchRooms and in the search
effect: rooms in the same ownership group compare by creation time
descending, and a room owned by the current user sorts before one that is
not. -/
def roomCompare (uid : String) (a b : Room) : Int :=
  if (decide (a.owner_id = uid)) = (decide (b.owner_id = uid)) then
    b.created_at - a.created_at
  else if a.owner_id = uid then -1 else 1

/-- The order induced by roomCompare: a sorts no later than b. -/
def roomLE (uid : String) (a b : Room) : Prop :=
  roomCompare uid a b ≤ 0

instance (uid : String) : DecidableRel (roomLE uid) :=
  fun a b => inferInstanceAs (Decidable (roomCompare uid a b ≤ 0))

instance (uid : String) : IsTotal Room (roomLE uid) where
  total a b := by
    unfold roomLE roomCompare
    by_cases ha : a.owner_id = uid <;> by_cases hb : b.owner_id = uid <;>
      simp [ha, hb] <;> omega

instance (uid : String) : IsTrans Room (roomLE uid) where
  trans a b c hab hbc := by
    unfold roomLE roomCompare at hab hbc ⊢
    by_cases ha : a.owner_id = uid <;> by_cases hb : b.owner_id = uid <;>
      by_cases hc : c.owner_id = uid <;>
      simp [ha, hb, hc] at hab hbc ⊢ <;> omega

/-- The sort applied to the fetched room list (and to the filtered list in
the search effect). -/
def sortRooms (uid : String) (rooms : List Room) : List Room :=
  List.insertionSort (roomLE uid) rooms

/-- Substring test on character lists, the semantics of the includes call
on strings: the empty needle is contained in everything. -/
def listIncludes : List Char → List Char → Bool
  | _, [] => true
  | [], _ :: _ => false
  | c :: hay, needle => List.isPrefixOf needle (c :: hay) || listIncludes hay needle

/-- hay.includes(needle) for strings. -/
def strIncludes (hay needle : String) : Bool :=
  listIncludes hay.data needle.data

/-- The filter predicate of the search effect, applied with the query
already lowercased: the room id or the room name contains the query
case-insensitively. -/
def roomMatches (query : String) (room : Room) : Bool :=
  strIncludes (jsToLower room.id) query || strIncludes (jsToLower room.name) query

/-- The search effect of RoomList: a query that trims to the empty string
leaves the room list unfiltered (only sorted); otherwise the list is
filtered by roomMatches with the lowercased query and then sorted. -/
def searchEffect (uid searchQuery : String) (rooms : List Room) : List Room :=
  if jsTrim searchQuery = "" then
    sortRooms uid rooms
  else
    sortRooms uid (rooms.filter (fun room => roomMatches (jsToLower searchQuery) room))

/-- The observable effects of one run of the joinRoom handler. The handler
starts while the join modal is open, so showJoinModal records the final
value of that flag (true when no setter ran). -/
structure JoinOutcome where
  errorToast : Option String := none
  successToast : Option String := none
  membershipQueried : Bool := false
  countQueried : Bool := false
  insertAttempted : Bool := false
  navigated : Option String := none
  showJoinModal : Bool := true
  joinPasswordCleared : Bool := false
deriving DecidableEq

/-- The tail of joinRoom after the capacity check passes (or is bypassed):
the membership insert is issued; on success the modal closes, the password
clears, the user navigates in and a success toast shows; on failure the
caught error is toasted and nothing else happens. -/
def joinInsertStep (room : Room) (insertRes : Except String Unit) : JoinOutcome :=
  match insertRes with
  | Except.error e =>
    { membershipQueried := true, countQueried := true, insertAttempted := true,
      errorToast := some e }
  | Except.ok _ =>
    { membershipQueried := true, countQueried := true, insertAttempted := true,
      showJoinModal := false, joinPasswordCleared := true,
      navigated := some room.id,
      successToast := some "Successfully joined the room!" }

/-- The joinRoom handler of RoomList. selectedRoom and joinPassword are the
component state at submit time; membershipRes is the response of the
maybeSingle membership lookup, countRes the response of the exact-count
query (whose count field is nullable), insertRes the response of the
membership insert. Queries later in the chain are only issued (their
Queried flag set) when the earlier steps pass. -/
def joinRoom (selectedRoom : Option Room) (joinPassword : String)
    (membershipRes : Except String (Option RoomUser))
    (countRes : Except String (Option Int))
    (insertRes : Except String Unit) : JoinOutcome :=
  match selectedRoom with
  | none => {}
  | some room =>
    if jsTrim joinPassword = "" then
      { errorToast := some "Room password is required" }
    else if joinPassword ≠ room.password_hash then
      { errorToast := some "Incorrect password" }
    else
      match membershipRes with
      | Except.error e => { membershipQueried := true, errorToast := some e }
      | Except.ok (some _) =>
        { membershipQueried := true, showJoinModal := false,
          joinPasswordCleared := true, navigated := some room.id }
      | Except.ok none =>
        match countRes with
        | Except.error e =>
          { membershipQueried := true, countQueried := true,
            errorToast := some e }
        | Except.ok (some c) =>
          if c ≥ room.max_users then
            { membershipQueried := true, countQueried := true,
              errorToast := some "Room is full. Please try another room.",
              showJoinModal := false, joinPasswordCleared := true }
          else
            joinInsertStep room insertRes
        | Except.ok none =>
          joinInsertStep room insertRes

/-- A row of the messages relation as inserted by the chat panel. -/
structure Message where
  content : String
  user_id : String
  user_email : String
  image_url : Option String := none
  message_type : String
  room_id : String
deriving DecidableEq

/-- The observable effects of one run of the handleSend handler. -/
structure SendOutcome where
  insertedRow : Option Message := none
  errorToast : Option String := none
  newMessageAfter : String
  messagesAfter : List Message
deriving DecidableEq

/-- The handleSend handler of Chat: input that trims to the empty string is
rejected before any backend call; otherwise a text message row is inserted
and the input is cleared on success. The local message list is never
touched by this handler (it only changes through the subscription). -/
def handleSend (newMessage : String) (messages : List Message)
    (sessionUserId sessionUserEmail roomId : String)
    (insertRes : Except String Unit) : SendOutcome :=
  if jsTrim newMessage = "" then
    { newMessageAfter := newMessage, messagesAfter := messages }
  else
    let row : Message :=
      { content := newMessage, user_id := sessionUserId,
        user_email := sessionUserEmail, message_type := "text",
        room_id := roomId }
    match insertRes with
    | Except.error e =>
      { insertedRow := some row, errorToast := some e,
        newMessageAfter := newMessage, messagesAfter := messages }
    | Except.ok _ =>
      { insertedRow := some row, newMessageAfter := "", messagesAfter := messages }

/-- The observable effects of one run of the handleImageUpload handler. -/
structure UploadOutcome where
  errorToast : Option String := none
  uploadAttempted : Bool := false
  insertedRow : Option Message := none
deriving DecidableEq

/-- The handleImageUpload handler of Chat: a non-image media type is
rejected before any backend call; then the object is uploaded, and only
after a successful upload is the public URL resolved and the image message
row inserted with that URL. -/
def handleImageUpload (fileType : String)
    (sessionUserId sessionUserEmail roomId : String)
    (publicUrl : String) (uploadRes : Except String Unit)
    (insertRes : Except String Unit) : UploadOutcome :=
  if ¬ jsStartsWith fileType "image/" then
    { errorToast := some "Please upload an image file" }
  else
    match uploadRes with
    | Except.error e => { uploadAttempted := true, errorToast := some e }
    | Except.ok _ =>
      let row : Message :=
        { content := "Sent an image", user_id := sessionUserId,
          user_email := sessionUserEmail, image_url := some publicUrl,
          message_type := "image", room_id := roomId }
      match insertRes with
      | Except.error e =>
        { uploadAttempted := true, insertedRow := some row,
          errorToast := some e }
      | Except.ok _ =>
        { uploadAttempted := true, insertedRow := some row }

/-- The three view flags of RoomView. -/
structure ViewState where
  showChat : Bool
  showMembers : Bool
  showLeaderboard : Bool
deriving DecidableEq

/-- All three flags start false. -/
def initialViewState : ViewState :=
  { showChat := false, showMembers := false, showLeaderboard := false }

/-- The three toggle buttons of RoomView. -/
inductive ViewAction where
  | toggleMembers
  | toggleLeaderboard
  | toggleChat
deriving DecidableEq

/-- The click handlers of the three toggle buttons: members toggles alone;
leaderboard toggles and turns chat off; chat toggles and turns leaderboard
off. -/
def viewStep (s : ViewState) : ViewAction → ViewState
  | ViewAction.toggleMembers => { s with showMembers := !s.showMembers }
  | ViewAction.toggleLeaderboard =>
    { s with showLeaderboard := !s.showLeaderboard, showChat := false }
  | ViewAction.toggleChat =>
    { s with showChat := !s.showChat, showLeaderboard := false }

/-- The state reached from the initial state by a sequence of toggles. -/
def runViews (acts : List ViewAction) : ViewState :=
  acts.foldl viewStep initialViewState

/-- The members panel renders when showMembers is set. -/
def membersVisible (s : ViewState) : Bool := s.showMembers

/-- The leaderboard renders when showLeaderboard is set. -/
def leaderboardVisible (s : ViewState) : Bool := s.showLeaderboard

/-- The chat panel renders when showChat is set. -/
def chatVisible (s : ViewState) : Bool := s.showChat

/-- The timer grid is hidden exactly when chat or leaderboard is shown. -/
def timerGridVisible (s : ViewState) : Bool := !(s.showChat || s.showLeaderboard)

/-- 1 for true, 0 for false. -/
def boolNat (b : Bool) : Nat := if b then 1 else 0

/-- How many of the chat-exclusive views (leaderboard, chat, timer grid)
render in a state. -/
def exclusiveViewCount (s : ViewState) : Nat :=
  boolNat (leaderboardVisible s) + boolNat (chatVisible s) +
    boolNat (timerGridVisible s)

/-- How many of the four views (members, leaderboard, chat, timer grid)
render in a state. -/
def activeViewCount (s : ViewState) : Nat :=
  boolNat (membersVisible s) + exclusiveViewCount s

/-- A concrete room used by witnesses and counterexamples. -/
def testRoom : Room :=
  { id := "r1", name := "s", owner_email := "o", created_at := 0,
    password_hash := "pw", max_users := 2, owner_id := "w" }

/-- The same room with max_users 0, for the null-count witness. -/
def testRoomZero : Room :=
  { id := "r1", name := "s", owner_email := "o", created_at := 0,
    password_hash := "pw", max_users := 0, owner_id := "w" }

/-- A concrete membership row used by witnesses. -/
def testMembership : RoomUser :=
  { room_id := "r1", user_id := "u" }

/-- C1: for every join attempt on a room whose membership count, as
returned by the backend count query, is at least the room max_users, with
a matching password and no existing membership row, joinRoom shows the
room-full notice, attempts no membership insert and does not navigate
into the room. -/
theorem joinRoom_full_rejected (room : Room) (pwd : String)
    (membershipRes : Except String (Option RoomUser)) (c : Int)
    (insertRes : Except String Unit)
    (hpwd : pwd = room.password_hash)
    (hmem : membershipRes = Except.ok none)
    (hcount : c ≥ room.max_users)
    (hq : (joinRoom (some room) pwd membershipRes (Except.ok (some c))
      insertRes).countQueried = true) :
    (joinRoom (some room) pwd membershipRes (Except.ok (some c))
        insertRes).errorToast = some "Room is full. Please try another room." ∧
    (joinRoom (some room) pwd membershipRes (Except.ok (some c))
        insertRes).insertAttempted = false ∧
    (joinRoom (some room) pwd membershipRes (Except.ok (some c))
        insertRes).navigated = none := by
  subst hpwd
  subst hmem
  by_cases ht : jsTrim room.password_hash = ""
  · simp [joinRoom, ht] at hq
  · simp [joinRoom, ht, hcount]

/-- Witness for C1: a concrete room with max_users 2 and a returned count
of 2. -/
theorem joinRoom_full_rejected_witness :
    (joinRoom (some testRoom) "pw"
      (Except.ok none) (Except.ok (some 2)) (Except.ok ())).errorToast
        = some "Room is full. Please try another room." ∧
    (joinRoom (some testRoom) "pw"
      (Except.ok none) (Except.ok (some 2)) (Except.ok ())).insertAttempted
        = false ∧
    (joinRoom (some testRoom) "pw"
      (Except.ok none) (Except.ok (some 2)) (Except.ok ())).navigated
        = none :=
  joinRoom_full_rejected _ "pw" _ 2 _ rfl rfl (by decide) (by decide)

/-- C2: for every join attempt whose non-empty supplied password differs
from the stored password field, joinRoom attempts no membership insert and
does not navigate. -/
theorem joinRoom_wrong_password (room : Room) (pwd : String)
    (membershipRes : Except String (Option RoomUser))
    (countRes : Except String (Option Int)) (insertRes : Except String Unit)
    (_hne : pwd ≠ "") (hdiff : pwd ≠ room.password_hash) :
    (joinRoom (some room) pwd membershipRes countRes
        insertRes).insertAttempted = false ∧
    (joinRoom (some room) pwd membershipRes countRes
        insertRes).navigated = none := by
  by_cases ht : jsTrim pwd = ""
  · simp [joinRoom, ht]
  · simp [joinRoom, ht, hdiff]

/-- Witness for C2: password x against stored password pw. -/
theorem joinRoom_wrong_password_witness :
    (joinRoom (some testRoom) "x"
      (Except.ok none) (Except.ok (some 0)) (Except.ok ())).insertAttempted
        = false ∧
    (joinRoom (some testRoom) "x"
      (Except.ok none) (Except.ok (some 0)) (Except.ok ())).navigated
        = none :=
  joinRoom_wrong_password _ "x" _ _ _ (by decide) (by decide)

/-- C3 counterexample: at a concrete join attempt rejected for an
incorrect password, joinRoom surfaces the notice but leaves the
show-join-modal flag true, so the originating modal is not force-closed as
the claim states for every business-rule rejection. -/
theorem joinRoom_wrong_password_modal_stays_open :
    (joinRoom (some testRoom) "x"
      (Except.ok none) (Except.ok (some 0)) (Except.ok ())).errorToast
        = some "Incorrect password" ∧
    (joinRoom (some testRoom) "x"
      (Except.ok none) (Except.ok (some 0)) (Except.ok ())).showJoinModal
        = true := by decide

/-- C3 (amended): both business-rule rejections surface a notice, but only
the room-full rejection force-closes the join modal; the incorrect-password
rejection returns with the show-join-modal flag still true. -/
theorem joinRoom_rejection_notices (room : Room) (pwd : String)
    (membershipRes : Except String (Option RoomUser)) (c : Int)
    (countRes : Except String (Option Int)) (insertRes : Except String Unit)
    (ht : jsTrim pwd ≠ "") :
    (pwd ≠ room.password_hash →
      (joinRoom (some room) pwd membershipRes countRes insertRes).errorToast
          = some "Incorrect password" ∧
      (joinRoom (some room) pwd membershipRes countRes
          insertRes).showJoinModal = true) ∧
    (pwd = room.password_hash → membershipRes = Except.ok none →
      c ≥ room.max_users →
      (joinRoom (some room) pwd membershipRes (Except.ok (some c))
          insertRes).errorToast
          = some "Room is full. Please try another room." ∧
      (joinRoom (some room) pwd membershipRes (Except.ok (some c))
          insertRes).showJoinModal = false) := by
  constructor
  · intro hdiff
    simp [joinRoom, ht, hdiff]
  · intro hpwd hmem hcount
    subst hpwd
    subst hmem
    simp [joinRoom, ht, hcount]

/-- Witness for C3 (amended): the incorrect-password part at a concrete
input. -/
theorem joinRoom_rejection_notices_witness :
    (joinRoom (some testRoom) "x"
      (Except.ok none) (Except.ok (some 0)) (Except.ok ())).errorToast
        = some "Incorrect password" ∧
    (joinRoom (some testRoom) "x"
      (Except.ok none) (Except.ok (some 0)) (Except.ok ())).showJoinModal
        = true :=
  (joinRoom_rejection_notices
    testRoom
    "x" (Except.ok none) 0 (Except.ok (some 0)) (Except.ok ())
    (by decide)).1 (by decide)

/-- C4: for every join attempt with a non-empty matching password by a
user who already has a membership row, joinRoom attempts no further insert
and navigates into the room. -/
theorem joinRoom_existing_membership (room : Room) (pwd : String)
    (m : RoomUser) (countRes : Except String (Option Int))
    (insertRes : Except String Unit)
    (ht : jsTrim pwd ≠ "") (hpwd : pwd = room.password_hash) :
    (joinRoom (some room) pwd (Except.ok (some m)) countRes
        insertRes).insertAttempted = false ∧
    (joinRoom (some room) pwd (Except.ok (some m)) countRes
        insertRes).navigated = some room.id := by
  subst hpwd
  simp [joinRoom, ht]

/-- Witness for C4: an existing member rejoining with the right
password. -/
theorem joinRoom_existing_membership_witness :
    (joinRoom (some testRoom) "pw"
      (Except.ok (some testMembership))
      (Except.ok (some 2)) (Except.ok ())).insertAttempted = false ∧
    (joinRoom (some testRoom) "pw"
      (Except.ok (some testMembership))
      (Except.ok (some 2)) (Except.ok ())).navigated = some "r1" :=
  joinRoom_existing_membership _ "pw" _ _ _ (by decide) (by decide)

/-- C10: when the count query runs and returns a null count, with no
existing membership row, a matching password and no query error, the
capacity check is bypassed and joinRoom proceeds to the membership insert
whatever max_users is. -/
theorem joinRoom_null_count_bypasses_capacity (room : Room) (pwd : String)
    (membershipRes : Except String (Option RoomUser))
    (insertRes : Except String Unit)
    (hpwd : pwd = room.password_hash)
    (hmem : membershipRes = Except.ok none)
    (hq : (joinRoom (some room) pwd membershipRes (Except.ok none)
      insertRes).countQueried = true) :
    (joinRoom (some room) pwd membershipRes (Except.ok none)
        insertRes).insertAttempted = true := by
  subst hpwd
  subst hmem
  by_cases ht : jsTrim room.password_hash = ""
  · simp [joinRoom, ht] at hq
  · cases insertRes <;> simp [joinRoom, ht, joinInsertStep]

/-- Witness for C10: a full room (count would exceed max_users) whose
count query returns null still reaches the insert. -/
theorem joinRoom_null_count_bypasses_capacity_witness :
    (joinRoom (some testRoomZero) "pw"
      (Except.ok none) (Except.ok none) (Except.ok ())).insertAttempted
        = true :=
  joinRoom_null_count_bypasses_capacity _ "pw" _ _ rfl rfl (by decide)

/-- C5: the room-directory sort places every room owned by the current
user before every room not owned by the current user, orders each of the
two groups by creation time descending, and permutes the input list. -/
theorem fetchRooms_sort_owner_first (uid : String) (rooms : List Room) :
    List.Pairwise
      (fun a b => (b.owner_id = uid → a.owner_id = uid) ∧
        ((a.owner_id = uid ↔ b.owner_id = uid) → b.created_at ≤ a.created_at))
      (sortRooms uid rooms) ∧
    (sortRooms uid rooms).Perm rooms := by
  refine ⟨?_, List.perm_insertionSort (roomLE uid) rooms⟩
  have hs : List.Pairwise (roomLE uid) (sortRooms uid rooms) :=
    List.sorted_insertionSort (roomLE uid) rooms
  refine hs.imp ?_
  intro a b hab
  unfold roomLE roomCompare at hab
  constructor
  · intro hbu
    by_contra hau
    simp [hau, hbu] at hab
  · intro hiff
    by_cases hau : a.owner_id = uid
    · have hbu : b.owner_id = uid := hiff.mp hau
      simp [hau, hbu] at hab
      omega
    · have hbu : ¬ b.owner_id = uid := fun h => hau (hiff.mpr h)
      simp [hau, hbu] at hab
      omega

/-- C6 counterexample: the query consisting of one space is non-empty and
is not a substring of the id or the name of the concrete room, yet the
search effect still returns that room, because a query that trims to the
empty string bypasses the filter. -/
theorem searchEffect_whitespace_query_not_filtered :
    (" " ≠ "") ∧
    testRoom ∈ searchEffect "u" " " [testRoom] ∧
    strIncludes (jsToLower testRoom.id) (jsToLower " ") = false ∧
    strIncludes (jsToLower testRoom.name) (jsToLower " ") = false := by
  decide

/-- C6 (amended): for every search query whose trimmed form is non-empty,
the filtered directory result contains exactly those rooms whose id or
name contains the query as a case-insensitive substring, and a query
matching no room yields the empty result. -/
theorem searchEffect_matches (uid q : String) (rooms : List Room) (r : Room)
    (hq : jsTrim q ≠ "") :
    (r ∈ searchEffect uid q rooms ↔
      r ∈ rooms ∧
        (strIncludes (jsToLower r.id) (jsToLower q) = true ∨
          strIncludes (jsToLower r.name) (jsToLower q) = true)) ∧
    ((∀ r2 ∈ rooms, roomMatches (jsToLower q) r2 = false) →
      searchEffect uid q rooms = []) := by
  constructor
  · rw [searchEffect, if_neg hq, sortRooms, List.mem_insertionSort,
      List.mem_filter]
    simp [roomMatches, Bool.or_eq_true]
  · intro hall
    rw [searchEffect, if_neg hq]
    have hnil : rooms.filter (fun room => roomMatches (jsToLower q) room) = [] := by
      rw [List.filter_eq_nil_iff]
      intro a ha
      simp [hall a ha]
    rw [hnil]
    rfl

/-- Witness for C6 (amended): the query b matches the concrete room by its
name. -/
theorem searchEffect_matches_witness :
    testRoom ∈ searchEffect "u" "S" [testRoom] ↔
      testRoom ∈ [testRoom] ∧
        (strIncludes (jsToLower testRoom.id) (jsToLower "S") = true ∨
          strIncludes (jsToLower testRoom.name) (jsToLower "S") = true) :=
  (searchEffect_matches "u" "S" [testRoom] testRoom (by decide)).1

/-- Invariant of the RoomView toggles: the chat flag and the leaderboard
flag are never both set. -/
def chatLeaderboardExclusive (s : ViewState) : Prop :=
  s.showChat = false ∨ s.showLeaderboard = false

/-- Each toggle preserves the chat-leaderboard exclusion. -/
theorem viewStep_preserves_exclusive (s : ViewState) (a : ViewAction)
    (hs : chatLeaderboardExclusive s) :
    chatLeaderboardExclusive (viewStep s a) := by
  cases a with
  | toggleMembers => simpa [viewStep, chatLeaderboardExclusive] using hs
  | toggleLeaderboard => simp [viewStep, chatLeaderboardExclusive]
  | toggleChat => simp [viewStep, chatLeaderboardExclusive]

/-- The chat-leaderboard exclusion holds after any toggle sequence from
any state satisfying it. -/
theorem foldl_viewStep_exclusive (acts : List ViewAction) (s : ViewState)
    (hs : chatLeaderboardExclusive s) :
    chatLeaderboardExclusive (acts.foldl viewStep s) := by
  induction acts generalizing s with
  | nil => exact hs
  | cons a rest ih => exact ih _ (viewStep_preserves_exclusive s a hs)

/-- C7 counterexample: toggling the members panel once from the initial
state reaches a state where both the members panel and the timer grid
render, so two of the four views are active at once. -/
theorem roomView_members_and_timers_both_active :
    activeViewCount (runViews [ViewAction.toggleMembers]) = 2 ∧
    membersVisible (runViews [ViewAction.toggleMembers]) = true ∧
    timerGridVisible (runViews [ViewAction.toggleMembers]) = true := by
  decide

/-- C7 (amended): in every state reachable from the initial state by the
three toggles, exactly one of leaderboard, chat panel and timer grid is
active; the members panel is controlled independently and can render on
top of whichever of those is active. -/
theorem roomView_exclusive_views (acts : List ViewAction) :
    exclusiveViewCount (runViews acts) = 1 := by
  have h : chatLeaderboardExclusive (runViews acts) :=
    foldl_viewStep_exclusive acts initialViewState (Or.inl rfl)
  rcases h with h | h
  · cases hl : (runViews acts).showLeaderboard <;>
      simp [exclusiveViewCount, boolNat, leaderboardVisible, chatVisible,
        timerGridVisible, h, hl]
  · cases hc : (runViews acts).showChat <;>
      simp [exclusiveViewCount, boolNat, leaderboardVisible, chatVisible,
        timerGridVisible, h, hc]

/-- C8: for every image-send attempt, a failed storage upload means no
message row is attempted, and an attempted message row implies the upload
succeeded and the row references the resolved public URL. -/
theorem handleImageUpload_insert_only_after_upload
    (fileType uid email roomId publicUrl : String)
    (uploadRes insertRes : Except String Unit) :
    ((∃ msg, uploadRes = Except.error msg) →
      (handleImageUpload fileType uid email roomId publicUrl uploadRes
          insertRes).insertedRow = none) ∧
    (∀ row, (handleImageUpload fileType uid email roomId publicUrl uploadRes
        insertRes).insertedRow = some row →
      uploadRes = Except.ok () ∧ row.image_url = some publicUrl) := by
  constructor
  · rintro ⟨msg, rfl⟩
    by_cases hft : jsStartsWith fileType "image/"
    · simp [handleImageUpload, hft]
    · simp [handleImageUpload, hft]
  · intro row hrow
    cases uploadRes with
    | error msg =>
      by_cases hft : jsStartsWith fileType "image/" <;>
        simp [handleImageUpload, hft] at hrow
    | ok u =>
      by_cases hft : jsStartsWith fileType "image/"
      · cases insertRes <;> simp [handleImageUpload, hft] at hrow <;>
          simp [← hrow]
      · simp [handleImageUpload, hft] at hrow

/-- Witness for C8: a failed upload of an image file inserts no row. -/
theorem handleImageUpload_insert_only_after_upload_witness :
    (handleImageUpload "image/png" "u" "e" "r" "url" (Except.error "boom")
        (Except.ok ())).insertedRow = none :=
  (handleImageUpload_insert_only_after_upload "image/png" "u" "e" "r" "url"
    (Except.error "boom") (Except.ok ())).1 ⟨"boom", rfl⟩

/-- C9: for every text-send attempt whose input trims to the empty string,
handleSend attempts no backend message insert and leaves the message list
unchanged. -/
theorem handleSend_whitespace_no_insert (newMessage : String)
    (messages : List Message) (uid email roomId : String)
    (insertRes : Except String Unit)
    (h : jsTrim newMessage = "") :
    (handleSend newMessage messages uid email roomId
        insertRes).insertedRow = none ∧
    (handleSend newMessage messages uid email roomId
        insertRes).messagesAfter = messages := by
  simp [handleSend, h]

/-- Witness for C9: a three-space input. -/
theorem handleSend_whitespace_no_insert_witness :
    (handleSend "   " [] "u" "e" "r" (Except.ok ())).insertedRow = none ∧
    (handleSend "   " [] "u" "e" "r" (Except.ok ())).messagesAfter = [] :=
  handleSend_whitespace_no_insert "   " [] "u" "e" "r" (Except.ok ())
    (by decide)
